import Mathlib

/-!
Shallow embedding of the QR generator form component
(src/src/components/QRGenerator.tsx).

The component derives a text payload from the active tab and the per-kind
input records (lines 63-91), hands the payload to an external encoder
(lines 94-105), and exposes download, copy and share handlers on the
rendered image (lines 107-163).  Each piece is translated below into an
executable Lean definition; theorems about the claims follow.
-/

set_option maxRecDepth 4096

/-- The QRType union from line 12 of the source. -/
inductive QRType where
  | url | text | email | phone | sms | contact | wifi
deriving DecidableEq

/-- Email record state, line 43 of the source. -/
structure EmailData where
  email : String
  subject : String
  body : String
deriving DecidableEq

/-- SMS record state, line 45 of the source. -/
structure SmsData where
  phone : String
  message : String
deriving DecidableEq

/-- ContactData interface, lines 14-22 of the source. -/
structure ContactData where
  firstName : String
  lastName : String
  organization : String
  title : String
  email : String
  phone : String
  mobile : String
deriving DecidableEq

/-- WiFiData interface, lines 24-29 of the source. -/
structure WiFiData where
  ssid : String
  password : String
  security : String
  hidden : Bool
deriving DecidableEq

/-- All per-kind input records owned by the form, lines 41-60. -/
structure Records where
  urlData : String
  textData : String
  emailData : EmailData
  phoneData : String
  smsData : SmsData
  contactData : ContactData
  wifiData : WiFiData
deriving DecidableEq

/-- The initial record values of the form, lines 41-60 of the source. -/
def initialRecords : Records :=
  { urlData := ""
    textData := ""
    emailData := { email := "", subject := "", body := "" }
    phoneData := ""
    smsData := { phone := "", message := "" }
    contactData :=
      { firstName := "", lastName := "", organization := "", title := ""
        email := "", phone := "", mobile := "" }
    wifiData := { ssid := "", password := "", security := "WPA", hidden := false } }

/-- How a JavaScript template literal renders a boolean. -/
def jsBoolString : Bool → String
  | true => "true"
  | false => "false"

/-- The characters encodeURIComponent leaves unescaped:
ASCII letters, digits, and the marks - _ . ! ~ * apostrophe ( ). -/
def isUnescapedChar (c : Char) : Bool :=
  c.isAlpha || c.isDigit ||
    c == '-' || c == '_' || c == '.' || c == '!' || c == '~' || c == '*' ||
    c == Char.ofNat 39 || c == '(' || c == ')'

/-- Uppercase hexadecimal digit for a value below 16. -/
def hexDigitChar (n : Nat) : Char :=
  if n < 10 then Char.ofNat (48 + n) else Char.ofNat (55 + n)

/-- UTF-8 byte sequence of a Unicode scalar value. -/
def utf8Bytes (c : Char) : List Nat :=
  let n := c.toNat
  if n < 128 then [n]
  else if n < 2048 then [192 + n / 64, 128 + n % 64]
  else if n < 65536 then [224 + n / 4096, 128 + (n / 64) % 64, 128 + n % 64]
  else [240 + n / 262144, 128 + (n / 4096) % 64, 128 + (n / 64) % 64, 128 + n % 64]

/-- Percent-escape of one byte, uppercase hex. -/
def percentByte (b : Nat) : String :=
  String.mk ['%', hexDigitChar (b / 16), hexDigitChar (b % 16)]

/-- Model of the JavaScript encodeURIComponent builtin used on lines 74
and 80 of the source: unescaped characters pass through, every other
character is replaced by the percent-escapes of its UTF-8 bytes. -/
def encodeURIComponent (s : String) : String :=
  String.join (s.data.map fun c =>
    if isUnescapedChar c then String.mk [c]
    else String.join ((utf8Bytes c).map percentByte))

/-- The payload derivation of the first useEffect, lines 63-91 of the
source: one branch per active tab, each a fixed string template. -/
def formatPayload (tab : QRType) (r : Records) : String :=
  match tab with
  | QRType.url => if r.urlData = "" then "https://example.com" else r.urlData
  | QRType.text => if r.textData = "" then "Sample text" else r.textData
  | QRType.email =>
      "mailto:" ++ r.emailData.email ++ "?subject=" ++
        encodeURIComponent r.emailData.subject ++ "&body=" ++
        encodeURIComponent r.emailData.body
  | QRType.phone => "tel:" ++ r.phoneData
  | QRType.sms =>
      "sms:" ++ r.smsData.phone ++ "?body=" ++ encodeURIComponent r.smsData.message
  | QRType.contact =>
      "BEGIN:VCARD\nVERSION:3.0\nFN:" ++ r.contactData.firstName ++ " " ++
        r.contactData.lastName ++ "\nORG:" ++ r.contactData.organization ++
        "\nTITLE:" ++ r.contactData.title ++ "\nEMAIL:" ++ r.contactData.email ++
        "\nTEL:" ++ r.contactData.phone ++ "\nTEL;TYPE=CELL:" ++
        r.contactData.mobile ++ "\nEND:VCARD"
  | QRType.wifi =>
      "WIFI:T:" ++ r.wifiData.security ++ ";S:" ++ r.wifiData.ssid ++ ";P:" ++
        r.wifiData.password ++ ";H:" ++ jsBoolString r.wifiData.hidden ++ ";"

/-- The tab names as they appear in filenames qr-code-(tab).png. -/
def tabName : QRType → String
  | QRType.url => "url"
  | QRType.text => "text"
  | QRType.email => "email"
  | QRType.phone => "phone"
  | QRType.sms => "sms"
  | QRType.contact => "contact"
  | QRType.wifi => "wifi"

/-- Full form state: active tab, per-kind records, the derived payload
(qrData, line 32) and the rendered image (qrCode, line 33). -/
structure FormState where
  activeTab : QRType
  records : Records
  qrData : String
  qrCode : String
deriving DecidableEq

/-- A toast notification issued through useToast; the destructive flag
distinguishes the error variant used on lines 138 and 159. -/
structure Toast where
  title : String
  description : String
  destructive : Bool
deriving DecidableEq

/-- External platform effects the handlers can trigger. -/
inductive Effect where
  | saveFile (filename href : String)
  | clipboardWrite (href : String)
  | shareCall (title filename : String)
deriving DecidableEq

/-- Result of running one handler: the form state it leaves behind, the
platform effects performed, the toasts shown, and whether an exception
escaped the handler. -/
structure HandlerResult where
  state : FormState
  effects : List Effect
  toasts : List Toast
  threw : Bool
deriving DecidableEq

/-- Whether an awaited platform operation succeeds or rejects. -/
inductive AsyncOutcome where
  | success | failure
deriving DecidableEq

/-- The downloadQR handler, lines 107-119 of the source: guarded by the
truthiness of qrCode; on a non-empty image it clicks a link with
download name qr-code-(tab).png and shows a success toast. -/
def downloadQR (s : FormState) : HandlerResult :=
  if s.qrCode = "" then
    { state := s, effects := [], toasts := [], threw := false }
  else
    { state := s
      effects := [Effect.saveFile ("qr-code-" ++ tabName s.activeTab ++ ".png") s.qrCode]
      toasts := [{ title := "QR Code Downloaded"
                   description := "Your QR code has been saved successfully!"
                   destructive := false }]
      threw := false }

/-- The copyQR handler, lines 121-142 of the source: guarded by qrCode;
the awaited fetch/blob/clipboard pipeline either succeeds (success toast)
or rejects into the catch block (destructive toast, nothing rethrown). -/
def copyQR (s : FormState) (o : AsyncOutcome) : HandlerResult :=
  if s.qrCode = "" then
    { state := s, effects := [], toasts := [], threw := false }
  else
    match o with
    | AsyncOutcome.success =>
        { state := s
          effects := [Effect.clipboardWrite s.qrCode]
          toasts := [{ title := "QR Code Copied"
                       description := "QR code copied to clipboard!"
                       destructive := false }]
          threw := false }
    | AsyncOutcome.failure =>
        { state := s
          effects := []
          toasts := [{ title := "Copy Failed"
                       description := "Unable to copy QR code to clipboard."
                       destructive := true }]
          threw := false }

/-- The shareQR handler, lines 144-163 of the source: guarded by the
availability of navigator.share and by qrCode; on success it calls the
share surface with the image file, on rejection the catch block shows a
destructive toast and rethrows nothing. -/
def shareQR (s : FormState) (shareAvailable : Bool) (o : AsyncOutcome) : HandlerResult :=
  if shareAvailable && !(s.qrCode = "") then
    match o with
    | AsyncOutcome.success =>
        { state := s
          effects := [Effect.shareCall "QR Code" ("qr-code-" ++ tabName s.activeTab ++ ".png")]
          toasts := []
          threw := false }
    | AsyncOutcome.failure =>
        { state := s
          effects := []
          toasts := [{ title := "Share Failed"
                       description := "Unable to share QR code."
                       destructive := true }]
          threw := false }
  else
    { state := s, effects := [], toasts := [], threw := false }

/-- State of the encode pipeline: the displayed image and the payloads
of the in-flight toDataURL promises. -/
structure EncState where
  qrCode : String
  pending : List String
deriving DecidableEq

/-- Events of the encode pipeline: a payload change firing the second
useEffect (lines 94-105), or the promise for a given payload resolving. -/
inductive EncEvent where
  | payloadChange (d : String)
  | resolve (d : String)
deriving DecidableEq

/-- One step of the encode pipeline as written on lines 94-105 of the
source.  A payload change starts an encode unless the payload is empty
(the if (qrData) guard).  When an in-flight promise resolves, its then
handler setQrCode stores the result unconditionally: the code keeps no
payload version and never discards a stale result. -/
def encStep (enc : String → String) (s : EncState) : EncEvent → EncState
  | EncEvent.payloadChange d =>
      if d = "" then s else { s with pending := s.pending ++ [d] }
  | EncEvent.resolve d =>
      if s.pending.contains d then
        { qrCode := enc d, pending := s.pending.erase d }
      else s

/-- Run the encode pipeline over a list of events. -/
def encRun (enc : String → String) (s : EncState) : List EncEvent → EncState
  | [] => s
  | e :: es => encRun enc (encStep enc s e) es

/-- A concrete stand-in for the external encoder collaborator, used to
evaluate the pipeline on closed traces. -/
def sampleEnc (d : String) : String :=
  "data:image/png;base64," ++ d

/-- How the promise returned by QRCode.toDataURL settles, as seen by the
effect on lines 94-105. -/
inductive EncodeOutcome where
  | resolved (img : String)
  | rejected
deriving DecidableEq

/-- Settlement handling of the encode promise, lines 96-103 of the
source: then(setQrCode) stores a resolution; the chain has no rejection
handler, so a rejection changes nothing, shows no toast, and is left as
an unhandled promise rejection (the Bool component). -/
def onEncodeSettled (s : FormState) : EncodeOutcome → FormState × List Toast × Bool
  | EncodeOutcome.resolved img => ({ s with qrCode := img }, [], false)
  | EncodeOutcome.rejected => (s, [], true)

/-- Number of lines of a string: newline count plus one. -/
def lineCount (s : String) : Nat :=
  (s.data.filter fun c => c = '\n').length + 1

/-- The contact record of the section 8 example. -/
def exampleContact : Records :=
  { initialRecords with contactData :=
      { firstName := "Jane", lastName := "Doe", organization := "Acme", title := "Eng"
        email := "j@acme.com", phone := "111", mobile := "222" } }

/-- The wifi record of the section 8 example. -/
def exampleWifi : Records :=
  { initialRecords with wifiData :=
      { ssid := "Net", password := "pw", security := "WPA", hidden := true } }

/-- The email record of the section 8 example. -/
def exampleEmail : Records :=
  { initialRecords with emailData :=
      { email := "a@b.com", subject := "Hi there", body := "line1&line2" } }

/-- A form state before any image has been rendered: qrCode is empty. -/
def emptyImageState : FormState :=
  { activeTab := QRType.url, records := initialRecords, qrData := "", qrCode := "" }

/-- A form state with a rendered image present. -/
def renderedState : FormState :=
  { activeTab := QRType.url, records := initialRecords
    qrData := "https://example.com", qrCode := "data:image/png;base64,AAA" }

/-- A string whose character list is non-empty is not the empty string. -/
theorem ne_empty_of_data_ne_nil (s : String) (h : s.data ≠ []) : s ≠ "" := by
  intro he
  rw [he] at h
  exact h rfl

/-- Appending on the right preserves a non-empty character list. -/
theorem data_append_ne_nil (s t : String) (h : s.data ≠ []) : (s ++ t).data ≠ [] := by
  rw [String.data_append]
  intro he
  exact h (List.append_eq_nil.mp he).1

/-- Every branch of the payload derivation yields a non-empty string. -/
theorem formatPayload_ne_empty (tab : QRType) (r : Records) : formatPayload tab r ≠ "" := by
  cases tab
  case url =>
    simp only [formatPayload]
    split
    · decide
    · assumption
  case text =>
    simp only [formatPayload]
    split
    · decide
    · assumption
  all_goals
    simp only [formatPayload]
    apply ne_empty_of_data_ne_nil
    repeat (first | apply data_append_ne_nil | decide)

/-- Claim C1: for every email record the payload equals
mailto:(email)?subject=(percent-encoded subject)&body=(percent-encoded body),
with percent-encoding applied only to subject and body, and the section 8
example record yields mailto:a@b.com?subject=Hi%20there&body=line1%26line2. -/
theorem email_payload_format (rec : Records) :
    formatPayload QRType.email rec =
      "mailto:" ++ rec.emailData.email ++ "?subject=" ++
        encodeURIComponent rec.emailData.subject ++ "&body=" ++
        encodeURIComponent rec.emailData.body ∧
    formatPayload QRType.email exampleEmail =
      "mailto:a@b.com?subject=Hi%20there&body=line1%26line2" :=
  ⟨rfl, by decide⟩

/-- Claim C2 counterexample: the contact payload of the section 8 example
record is not an 8-line block; it has 9 lines. -/
theorem contact_vcard_not_eight_lines :
    lineCount (formatPayload QRType.contact exampleContact) ≠ 8 ∧
    lineCount (formatPayload QRType.contact exampleContact) = 9 := by
  refine ⟨?_, ?_⟩ <;> decide

/-- Claim C2 (amended): for every contact record the payload is the
newline-joined vCard 3.0 block BEGIN:VCARD / VERSION:3.0 / FN / ORG /
TITLE / EMAIL / TEL / TEL;TYPE=CELL / END:VCARD with sub-fields
interpolated verbatim; the block has 9 lines, and the section 8 example
record yields exactly that block. -/
theorem contact_vcard_format (rec : Records) :
    formatPayload QRType.contact rec =
      "BEGIN:VCARD\nVERSION:3.0\nFN:" ++ rec.contactData.firstName ++ " " ++
        rec.contactData.lastName ++ "\nORG:" ++ rec.contactData.organization ++
        "\nTITLE:" ++ rec.contactData.title ++ "\nEMAIL:" ++ rec.contactData.email ++
        "\nTEL:" ++ rec.contactData.phone ++ "\nTEL;TYPE=CELL:" ++
        rec.contactData.mobile ++ "\nEND:VCARD" ∧
    formatPayload QRType.contact exampleContact =
      "BEGIN:VCARD\nVERSION:3.0\nFN:Jane Doe\nORG:Acme\nTITLE:Eng\nEMAIL:j@acme.com\nTEL:111\nTEL;TYPE=CELL:222\nEND:VCARD" ∧
    lineCount (formatPayload QRType.contact exampleContact) = 9 :=
  ⟨rfl, by decide, by decide⟩

/-- Claim C3: for every wifi record the payload equals
WIFI:T:(security);S:(ssid);P:(password);H:(lowercase boolean); with the
text fields interpolated verbatim, and the section 8 example yields
WIFI:T:WPA;S:Net;P:pw;H:true;. -/
theorem wifi_payload_format (rec : Records) :
    formatPayload QRType.wifi rec =
      "WIFI:T:" ++ rec.wifiData.security ++ ";S:" ++ rec.wifiData.ssid ++ ";P:" ++
        rec.wifiData.password ++ ";H:" ++ jsBoolString rec.wifiData.hidden ++ ";" ∧
    jsBoolString true = "true" ∧ jsBoolString false = "false" ∧
    formatPayload QRType.wifi exampleWifi = "WIFI:T:WPA;S:Net;P:pw;H:true;" :=
  ⟨rfl, rfl, rfl, by decide⟩

/-- Claim C4: for the url and text kinds, an empty input yields the fixed
placeholder (https-example-com resp. Sample text) and a non-empty input
passes through unmodified. -/
theorem url_text_placeholder (rec : Records) :
    (rec.urlData = "" → formatPayload QRType.url rec = "https://example.com") ∧
    (rec.urlData ≠ "" → formatPayload QRType.url rec = rec.urlData) ∧
    (rec.textData = "" → formatPayload QRType.text rec = "Sample text") ∧
    (rec.textData ≠ "" → formatPayload QRType.text rec = rec.textData) := by
  refine ⟨fun h => ?_, fun h => ?_, fun h => ?_, fun h => ?_⟩ <;>
    simp [formatPayload, h]

/-- Witness for claim C4 at concrete records. -/
theorem url_text_placeholder_witness :
    formatPayload QRType.url initialRecords = "https://example.com" ∧
    formatPayload QRType.url { initialRecords with urlData := "https://a.io" } = "https://a.io" ∧
    formatPayload QRType.text initialRecords = "Sample text" ∧
    formatPayload QRType.text { initialRecords with textData := "hello" } = "hello" :=
  ⟨(url_text_placeholder initialRecords).1 rfl,
   (url_text_placeholder { initialRecords with urlData := "https://a.io" }).2.1 (by decide),
   (url_text_placeholder initialRecords).2.2.1 rfl,
   (url_text_placeholder { initialRecords with textData := "hello" }).2.2.2 (by decide)⟩

/-- Claim C5: the encode pipeline as written applies results in completion
order, not payload order.  On the trace issue(P1), issue(P2), resolve(P2),
resolve(P1) the displayed image ends up equal to the encoding of P1, the
stale older payload, and differs from the encoding of P2: the then
handler stores every resolution unconditionally, so the last-write-wins
ordering by payload version required by the claim is violated. -/
theorem stale_encode_overwrites :
    (encRun sampleEnc { qrCode := "", pending := [] }
      [EncEvent.payloadChange "P1", EncEvent.payloadChange "P2",
       EncEvent.resolve "P2", EncEvent.resolve "P1"]).qrCode = sampleEnc "P1" ∧
    sampleEnc "P1" ≠ sampleEnc "P2" := by
  refine ⟨?_, ?_⟩ <;> decide

/-- Claim C6: when the encode promise rejects, the rendered image keeps
its previous value, but the effect shows no toast at all (the promise
chain has no rejection handler) and the rejection is left unhandled: the
code keeps the image as claimed but surfaces no notice. -/
theorem encode_rejection_unhandled (s : FormState) :
    (onEncodeSettled s EncodeOutcome.rejected).1 = s ∧
    (onEncodeSettled s EncodeOutcome.rejected).2.1 = [] ∧
    (onEncodeSettled s EncodeOutcome.rejected).2.2 = true :=
  ⟨rfl, rfl, rfl⟩

/-- Claim C7: with no rendered image present (qrCode empty) each of the
download, copy and share handlers returns without throwing, performs no
platform effect, shows no toast, and leaves the form state unchanged. -/
theorem handlers_noop_without_image (s : FormState) (o : AsyncOutcome) (avail : Bool)
    (h : s.qrCode = "") :
    downloadQR s = { state := s, effects := [], toasts := [], threw := false } ∧
    copyQR s o = { state := s, effects := [], toasts := [], threw := false } ∧
    shareQR s avail o = { state := s, effects := [], toasts := [], threw := false } := by
  refine ⟨?_, ?_, ?_⟩
  · unfold downloadQR
    simp [h]
  · unfold copyQR
    simp [h]
  · unfold shareQR
    simp [h]

/-- Witness for claim C7 at a concrete image-less state. -/
theorem handlers_noop_without_image_witness :
    downloadQR emptyImageState =
      { state := emptyImageState, effects := [], toasts := [], threw := false } ∧
    copyQR emptyImageState AsyncOutcome.failure =
      { state := emptyImageState, effects := [], toasts := [], threw := false } ∧
    shareQR emptyImageState true AsyncOutcome.failure =
      { state := emptyImageState, effects := [], toasts := [], threw := false } :=
  handlers_noop_without_image emptyImageState AsyncOutcome.failure true rfl

/-- Claim C8: every run of the download, copy and share handlers, on any
state and any platform outcome, leaves the form state (active tab,
records, payload, rendered image) unchanged. -/
theorem handlers_preserve_state (s : FormState) (o : AsyncOutcome) (avail : Bool) :
    (downloadQR s).state = s ∧ (copyQR s o).state = s ∧ (shareQR s avail o).state = s := by
  refine ⟨?_, ?_, ?_⟩
  · unfold downloadQR
    split <;> rfl
  · unfold copyQR
    split
    · rfl
    · cases o <;> rfl
  · unfold shareQR
    split
    · cases o <;> rfl
    · rfl

/-- Claim C9: with an image present, a copy failure and a share failure
each produce exactly one destructive toast and nothing is rethrown, and
with the share capability absent the share handler does nothing at all. -/
theorem copy_share_failure_recoverable (s : FormState) (h : s.qrCode ≠ "") :
    copyQR s AsyncOutcome.failure =
      { state := s, effects := []
        toasts := [{ title := "Copy Failed"
                     description := "Unable to copy QR code to clipboard."
                     destructive := true }]
        threw := false } ∧
    shareQR s true AsyncOutcome.failure =
      { state := s, effects := []
        toasts := [{ title := "Share Failed"
                     description := "Unable to share QR code."
                     destructive := true }]
        threw := false } ∧
    (∀ o, shareQR s false o = { state := s, effects := [], toasts := [], threw := false }) := by
  refine ⟨?_, ?_, fun o => ?_⟩
  · unfold copyQR
    simp [h]
  · unfold shareQR
    simp [h]
  · unfold shareQR
    simp

/-- Witness for claim C9 at a concrete rendered state. -/
theorem copy_share_failure_recoverable_witness :
    copyQR renderedState AsyncOutcome.failure =
      { state := renderedState, effects := []
        toasts := [{ title := "Copy Failed"
                     description := "Unable to copy QR code to clipboard."
                     destructive := true }]
        threw := false } :=
  (copy_share_failure_recoverable renderedState (by decide)).1

/-- Claim C10: for every kind and every record the derived payload is a
non-empty string, so the empty-payload guard of the encode effect is
never taken after a recomputation: the payload change always starts an
encode. -/
theorem payload_always_nonempty (tab : QRType) (r : Records)
    (enc : String → String) (s : EncState) :
    formatPayload tab r ≠ "" ∧
    encStep enc s (EncEvent.payloadChange (formatPayload tab r)) =
      { s with pending := s.pending ++ [formatPayload tab r] } :=
  ⟨formatPayload_ne_empty tab r, by
    unfold encStep
    simp [formatPayload_ne_empty tab r]⟩
